import Mathlib

/-!
Shallow embedding of `src/main.py` of withings-token-guardian.

The service reads three relevant environment variables (`Config`), exposes
two POST routes (`/webhook/refresh-needed` handled by `refresh_needed`,
`/refresh` handled by `manual_refresh`) and a relay coroutine
`refresh_withings_token` that makes at most one outbound HTTP call to
`{WITHINGS_MCP_URL}/admin/token/refresh`.

The outside world is modelled by `Upstream`: what the single outbound call
would yield if attempted (an HTTP response with status, raw text and the
outcome of parsing its body as JSON, or a transport-level exception carrying
its stringified message).  Python dicts whose keys may be absent are
modelled with `Option` fields: `none` means the key is absent from the dict.
A JSON value stored under a key is `JVal`; since Python's `dict.get` returns
`None` both for an absent key and for a key bound to `None`, a JSON `null`
value is identified with key absence at the `get` boundary.
-/

/-- A (non-null) JSON value, as far as this program inspects one. -/
inductive JVal
  | s (v : String)
  | i (v : Int)
  | b (v : Bool)
deriving Repr, DecidableEq

/-- A parsed JSON object body: association of keys to values. -/
def JsonData := List (String × JVal)

instance : DecidableEq JsonData := inferInstanceAs (DecidableEq (List (String × JVal)))

instance : Repr JsonData := inferInstanceAs (Repr (List (String × JVal)))

instance : DecidableEq (Except String JsonData) := fun a b =>
  match a, b with
  | .ok x, .ok y =>
    if h : x = y then .isTrue (by simp [h]) else .isFalse (by simp [h])
  | .error x, .error y =>
    if h : x = y then .isTrue (by simp [h]) else .isFalse (by simp [h])
  | .ok _, .error _ => .isFalse (by simp)
  | .error _, .ok _ => .isFalse (by simp)

/-- Python `data.get(k)`: the value under `k`, or `None` when absent. -/
def JsonData.get (d : JsonData) (k : String) : Option JVal :=
  List.lookup k d

/-- The environment variables read at module level in `main.py`
(only those the modelled functions consult). -/
structure Config where
  WITHINGS_MCP_URL : String
  ADMIN_API_TOKEN : String
  GUARDIAN_SECRET : String
deriving Repr, DecidableEq

/-- What the single outbound `client.post` would yield if it is attempted. -/
inductive Upstream
  | response (status : Nat) (text : String) (json : Except String JsonData)
  | exc (msg : String)
deriving Repr, DecidableEq

/-- The outbound HTTP request built at `main.py:183-186`. -/
structure OutboundRequest where
  url : String
  headers : List (String × String)
deriving Repr, DecidableEq

/-- The dict returned by `refresh_withings_token`.  An `Option` field equal
to `none` means the corresponding key is absent from the dict; for
`expires_at` / `expires_in_seconds` the inner `Option JVal` is the value
that `data.get` produced (with `none` for Python `None`). -/
structure RefreshResult where
  success : Bool
  error : Option String
  expires_at : Option (Option JVal)
  expires_in_seconds : Option (Option JVal)
deriving Repr, DecidableEq

/-- One run of the relay: its returned dict together with the list of
outbound HTTP requests it attempted (in order). -/
structure RelayRun where
  result : RefreshResult
  requests : List OutboundRequest
deriving Repr, DecidableEq

/-- The request `refresh_withings_token` posts: URL
`{WITHINGS_MCP_URL}/admin/token/refresh` with header
`X-Admin-Token: {ADMIN_API_TOKEN}` (`main.py:183-186`). -/
def outboundRequest (cfg : Config) : OutboundRequest :=
  { url := cfg.WITHINGS_MCP_URL ++ "/admin/token/refresh"
    headers := [("X-Admin-Token", cfg.ADMIN_API_TOKEN)] }

/-- `refresh_withings_token` (`main.py:168-209`), parameterised by what the
outbound call would yield.  Mirrors the code branch for branch: the
precondition check on `ADMIN_API_TOKEN`, then the single `client.post`
inside `try`, then the classification of the response; every exception
raised inside the `try` (transport failure, or `response.json()` failing)
is caught and returned as `success=False, error=str(e)`. -/
def refresh_withings_token (cfg : Config) (up : Upstream) : RelayRun :=
  if cfg.ADMIN_API_TOKEN = "" then
    { result := { success := false
                  error := some "ADMIN_API_TOKEN not configured"
                  expires_at := none
                  expires_in_seconds := none }
      requests := [] }
  else
    match up with
    | .response status text json =>
      if status = 200 then
        match json with
        | .ok data =>
          { result := { success := true
                        error := none
                        expires_at := some (data.get "expires_at")
                        expires_in_seconds := some (data.get "expires_in_seconds") }
            requests := [outboundRequest cfg] }
        | .error e =>
          { result := { success := false
                        error := some e
                        expires_at := none
                        expires_in_seconds := none }
            requests := [outboundRequest cfg] }
      else
        { result := { success := false
                      error := some ("HTTP " ++ toString status ++ ": " ++ text)
                      expires_at := none
                      expires_in_seconds := none }
          requests := [outboundRequest cfg] }
    | .exc e =>
      { result := { success := false
                    error := some e
                    expires_at := none
                    expires_in_seconds := none }
        requests := [outboundRequest cfg] }

/-- A JSON response body as the routes build them.  `none` in an outer
`Option` means the key is absent from the body.  `detail` is the body of a
FastAPI `HTTPException` (`{"detail": ...}`). -/
structure RespBody where
  detail : Option String
  success : Option Bool
  message : Option String
  expires_at : Option (Option JVal)
  error : Option (Option String)
  timestamp : Option String
deriving Repr, DecidableEq

/-- The body `{"detail": d}` of a FastAPI `HTTPException`. -/
def detailBody (d : String) : RespBody :=
  { detail := some d, success := none, message := none
    expires_at := none, error := none, timestamp := none }

/-- What a route handler produces: HTTP status, response body, how many
times it invoked the relay, and the outbound requests that were made. -/
structure HandlerOut where
  status : Nat
  body : RespBody
  relayCalls : Nat
  requests : List OutboundRequest
deriving Repr, DecidableEq

/-- The `try`/`except` block of `refresh_needed` (`main.py:84-118`),
parameterised by the outcome of `await refresh_withings_token()`:
`Except.ok r` when it returned `r`, `Except.error e` when it raised an
exception with `str(e) = e`.  `ts` is `datetime.utcnow().isoformat()`. -/
def refresh_needed_core (outcome : Except String RefreshResult) (ts : String) :
    Nat × RespBody :=
  match outcome with
  | .ok r =>
    if r.success then
      (200, { detail := none
              success := some true
              message := some "Token refreshed successfully"
              expires_at := some (r.expires_at.getD none)
              error := none
              timestamp := some ts })
    else
      (500, { detail := none
              success := some false
              message := some "Token refresh failed"
              expires_at := none
              error := some r.error
              timestamp := some ts })
  | .error e =>
    (500, { detail := none
            success := some false
            message := some "Token refresh exception"
            expires_at := none
            error := some (some e)
            timestamp := some ts })

/-- The `try`/`except` block of `manual_refresh` (`main.py:137-165`),
parameterised like `refresh_needed_core`. -/
def manual_refresh_core (outcome : Except String RefreshResult) (ts : String) :
    Nat × RespBody :=
  match outcome with
  | .ok r =>
    if r.success then
      (200, { detail := none
              success := some true
              message := some "Token refreshed successfully"
              expires_at := some (r.expires_at.getD none)
              error := none
              timestamp := some ts })
    else
      (500, { detail := none
              success := some false
              message := some "Token refresh failed"
              expires_at := none
              error := some r.error
              timestamp := none })
  | .error e =>
    (500, { detail := none
            success := some false
            message := some "Exception during refresh"
            expires_at := none
            error := some (some e)
            timestamp := none })

/-- Handler of `POST /webhook/refresh-needed` (`main.py:60-118`).  The
guard `if GUARDIAN_SECRET and x_guardian_secret != GUARDIAN_SECRET` raises
`HTTPException(401, "Invalid guardian secret")` before the relay is
invoked; otherwise the relay runs once (it is total in this embedding, so
the `except` arm of the route receives `Except.ok`). -/
def refresh_needed (cfg : Config) (x_guardian_secret : Option String)
    (up : Upstream) (ts : String) : HandlerOut :=
  if cfg.GUARDIAN_SECRET ≠ "" ∧ x_guardian_secret ≠ some cfg.GUARDIAN_SECRET then
    { status := 401, body := detailBody "Invalid guardian secret"
      relayCalls := 0, requests := [] }
  else
    let run := refresh_withings_token cfg up
    let out := refresh_needed_core (Except.ok run.result) ts
    { status := out.1, body := out.2, relayCalls := 1, requests := run.requests }

/-- Handler of `POST /refresh` (`main.py:121-165`).  Note the guard
compares `x_admin_token` against `GUARDIAN_SECRET` (`main.py:132`). -/
def manual_refresh (cfg : Config) (x_admin_token : Option String)
    (up : Upstream) (ts : String) : HandlerOut :=
  if cfg.GUARDIAN_SECRET ≠ "" ∧ x_admin_token ≠ some cfg.GUARDIAN_SECRET then
    { status := 401, body := detailBody "Invalid admin token"
      relayCalls := 0, requests := [] }
  else
    let run := refresh_withings_token cfg up
    let out := manual_refresh_core (Except.ok run.result) ts
    { status := out.1, body := out.2, relayCalls := 1, requests := run.requests }

/-- A sample configuration used by witness theorems. -/
def cfg0 : Config :=
  { WITHINGS_MCP_URL := "https://mcp.example"
    ADMIN_API_TOKEN := "admintok"
    GUARDIAN_SECRET := "guardsec" }

/-- A sample configuration with no admin token, used by witness theorems. -/
def cfgNoTok : Config :=
  { WITHINGS_MCP_URL := "https://mcp.example"
    ADMIN_API_TOKEN := ""
    GUARDIAN_SECRET := "guardsec" }

/-- The relay attempts the outbound request exactly when the admin token is
configured. -/
theorem relay_requests_eq (cfg : Config) (up : Upstream) :
    (refresh_withings_token cfg up).requests =
      if cfg.ADMIN_API_TOKEN = "" then [] else [outboundRequest cfg] := by
  unfold refresh_withings_token
  by_cases h : cfg.ADMIN_API_TOKEN = ""
  · simp [h]
  · rcases up with ⟨st, text, json⟩ | e
    · by_cases hst : st = 200
      · rcases json with d | e <;> simp [h, hst]
      · simp [h, hst]
    · simp [h]

/-- The route cores only ever answer 200 or 500. -/
theorem refresh_needed_core_status (o : Except String RefreshResult) (ts : String) :
    (refresh_needed_core o ts).1 = 200 ∨ (refresh_needed_core o ts).1 = 500 := by
  rcases o with e | r
  · simp [refresh_needed_core]
  · by_cases h : r.success <;> simp [refresh_needed_core, h]

/-- The manual route core only ever answers 200 or 500. -/
theorem manual_refresh_core_status (o : Except String RefreshResult) (ts : String) :
    (manual_refresh_core o ts).1 = 200 ∨ (manual_refresh_core o ts).1 = 500 := by
  rcases o with e | r
  · simp [manual_refresh_core]
  · by_cases h : r.success <;> simp [manual_refresh_core, h]

/-- C1: when a shared secret is configured and the `X-Guardian-Secret`
header is absent or not equal to it, `POST /webhook/refresh-needed`
responds 401 with body `{"detail": "Invalid guardian secret"}`, the relay
is never invoked, and no outbound request is made. -/
theorem C1_webhook_unauthorized (cfg : Config) (hdr : Option String)
    (up : Upstream) (ts : String)
    (hsec : cfg.GUARDIAN_SECRET ≠ "") (hbad : hdr ≠ some cfg.GUARDIAN_SECRET) :
    refresh_needed cfg hdr up ts =
      { status := 401, body := detailBody "Invalid guardian secret"
        relayCalls := 0, requests := [] } := by
  unfold refresh_needed
  rw [if_pos ⟨hsec, hbad⟩]

/-- Witness for C1 at a concrete configuration and absent header. -/
theorem C1_witness :
    cfg0.GUARDIAN_SECRET ≠ "" ∧ (none : Option String) ≠ some cfg0.GUARDIAN_SECRET ∧
    refresh_needed cfg0 none (Upstream.exc "down") "T" =
      { status := 401, body := detailBody "Invalid guardian secret"
        relayCalls := 0, requests := [] } :=
  ⟨by decide, by decide,
    C1_webhook_unauthorized cfg0 none (Upstream.exc "down") "T" (by decide) (by decide)⟩

/-- C2: with an unconfigured (empty) admin token the relay returns
immediately with `success=false` and error exactly
`"ADMIN_API_TOKEN not configured"`, attempting no outbound call. -/
theorem C2_relay_no_admin_token (cfg : Config) (up : Upstream)
    (h : cfg.ADMIN_API_TOKEN = "") :
    refresh_withings_token cfg up =
      { result := { success := false
                    error := some "ADMIN_API_TOKEN not configured"
                    expires_at := none
                    expires_in_seconds := none }
        requests := [] } := by
  unfold refresh_withings_token
  rw [if_pos h]

/-- Witness for C2 at a concrete tokenless configuration. -/
theorem C2_witness :
    cfgNoTok.ADMIN_API_TOKEN = "" ∧
    refresh_withings_token cfgNoTok (Upstream.response 200 "ok" (Except.ok [])) =
      { result := { success := false
                    error := some "ADMIN_API_TOKEN not configured"
                    expires_at := none
                    expires_in_seconds := none }
        requests := [] } :=
  ⟨by decide, C2_relay_no_admin_token cfgNoTok (Upstream.response 200 "ok" (Except.ok [])) (by decide)⟩

/-- C3: on an upstream response with status other than 200 and body text
`text`, the relay returns `success=false` with error
`"HTTP <status>: " ++ text`, and the invoking webhook route (with auth
passing) responds 500. -/
theorem C3_relay_http_error (cfg : Config) (st : Nat) (text : String)
    (json : Except String JsonData) (hdr : Option String) (ts : String)
    (htok : cfg.ADMIN_API_TOKEN ≠ "") (hst : st ≠ 200)
    (hauth : ¬(cfg.GUARDIAN_SECRET ≠ "" ∧ hdr ≠ some cfg.GUARDIAN_SECRET)) :
    (refresh_withings_token cfg (Upstream.response st text json)).result =
      { success := false
        error := some ("HTTP " ++ toString st ++ ": " ++ text)
        expires_at := none
        expires_in_seconds := none } ∧
    (refresh_needed cfg hdr (Upstream.response st text json) ts).status = 500 := by
  constructor
  · unfold refresh_withings_token
    simp [htok, hst]
  · unfold refresh_needed
    rw [if_neg hauth]
    unfold refresh_withings_token
    simp [htok, hst, refresh_needed_core]

/-- Witness for C3: upstream 503 with body "service unavailable". -/
theorem C3_witness :
    (refresh_withings_token cfg0
        (Upstream.response 503 "service unavailable" (Except.error "not json"))).result =
      { success := false
        error := some "HTTP 503: service unavailable"
        expires_at := none
        expires_in_seconds := none } ∧
    (refresh_needed cfg0 (some "guardsec")
        (Upstream.response 503 "service unavailable" (Except.error "not json")) "T").status = 500 :=
  C3_relay_http_error cfg0 503 "service unavailable" (Except.error "not json")
    (some "guardsec") "T" (by decide) (by decide) (by decide)

/-- C4: on an upstream 200 response whose body parses as JSON object `data`,
the relay returns `success=true` with `expires_at` and `expires_in_seconds`
the values `data.get` passes through unchanged — in particular null
(`none`) when the key is absent. -/
theorem C4_relay_success_passthrough (cfg : Config) (text : String)
    (data : JsonData) (htok : cfg.ADMIN_API_TOKEN ≠ "") :
    (refresh_withings_token cfg (Upstream.response 200 text (Except.ok data))).result =
      { success := true
        error := none
        expires_at := some (data.get "expires_at")
        expires_in_seconds := some (data.get "expires_in_seconds") } ∧
    (data.get "expires_at" = none →
      (refresh_withings_token cfg
          (Upstream.response 200 text (Except.ok data))).result.expires_at = some none) := by
  constructor
  · unfold refresh_withings_token
    simp [htok]
  · intro habs
    unfold refresh_withings_token
    simp [htok, habs]

/-- Witness for C4 with a concrete JSON body carrying `expires_at`. -/
theorem C4_witness :
    (refresh_withings_token cfg0
        (Upstream.response 200 "{}"
          (Except.ok [("expires_at", JVal.s "2025-01-01T00:00:00Z"),
                      ("expires_in_seconds", JVal.i 3600)]))).result =
      { success := true
        error := none
        expires_at := some (some (JVal.s "2025-01-01T00:00:00Z"))
        expires_in_seconds := some (some (JVal.i 3600)) } :=
  (C4_relay_success_passthrough cfg0 "{}"
    [("expires_at", JVal.s "2025-01-01T00:00:00Z"),
     ("expires_in_seconds", JVal.i 3600)] (by decide)).1.trans (by decide)

/-- C5: the relay is total at its boundary: it attempts at most one
outbound call, none at all when the precondition check fails, and a
transport-level exception is classified into `success=false` with error the
stringified exception (never re-raised). -/
theorem C5_relay_total (cfg : Config) (up : Upstream) :
    (refresh_withings_token cfg up).requests.length ≤ 1 ∧
    (cfg.ADMIN_API_TOKEN = "" → (refresh_withings_token cfg up).requests = []) ∧
    (∀ e, cfg.ADMIN_API_TOKEN ≠ "" →
      refresh_withings_token cfg (Upstream.exc e) =
        { result := { success := false
                      error := some e
                      expires_at := none
                      expires_in_seconds := none }
          requests := [outboundRequest cfg] }) := by
  refine ⟨?_, ?_, ?_⟩
  · rw [relay_requests_eq]
    split <;> simp
  · intro h
    rw [relay_requests_eq, if_pos h]
  · intro e htok
    unfold refresh_withings_token
    simp [htok]

/-- Witness for C5 at a concrete configuration and transport failure. -/
theorem C5_witness :
    (refresh_withings_token cfg0 (Upstream.exc "conn refused")).requests.length ≤ 1 ∧
    refresh_withings_token cfg0 (Upstream.exc "conn refused") =
      { result := { success := false
                    error := some "conn refused"
                    expires_at := none
                    expires_in_seconds := none }
        requests := [outboundRequest cfg0] } :=
  ⟨(C5_relay_total cfg0 (Upstream.exc "conn refused")).1,
    (C5_relay_total cfg0 (Upstream.exc "conn refused")).2.2 "conn refused" (by decide)⟩

/-- C6: `POST /refresh` authenticates by comparing `X-Admin-Token` against
the guardian shared secret (its 401 decision depends only on
`GUARDIAN_SECRET` and the header, never on `ADMIN_API_TOKEN`), while the
admin API token appears only in the outbound request's `X-Admin-Token`
header. -/
theorem C6_refresh_auth_uses_guardian_secret (cfg : Config) (tok : Option String)
    (up : Upstream) (ts : String) :
    ((manual_refresh cfg tok up ts).status = 401 ↔
      cfg.GUARDIAN_SECRET ≠ "" ∧ tok ≠ some cfg.GUARDIAN_SECRET) ∧
    (∀ r ∈ (manual_refresh cfg tok up ts).requests,
      r.headers = [("X-Admin-Token", cfg.ADMIN_API_TOKEN)]) := by
  constructor
  · constructor
    · intro h401
      by_contra hauth
      revert h401
      unfold manual_refresh
      rw [if_neg hauth]
      rcases manual_refresh_core_status (Except.ok (refresh_withings_token cfg up).result) ts
        with h | h <;> simp [h]
    · intro hauth
      unfold manual_refresh
      rw [if_pos hauth]
  · intro r hr
    revert hr
    unfold manual_refresh
    by_cases hauth : cfg.GUARDIAN_SECRET ≠ "" ∧ tok ≠ some cfg.GUARDIAN_SECRET
    · rw [if_pos hauth]
      intro hr
      simp at hr
    · rw [if_neg hauth]
      intro hr
      simp only [relay_requests_eq] at hr
      by_cases htok : cfg.ADMIN_API_TOKEN = ""
      · simp [htok] at hr
      · simp [htok] at hr
        simp [hr, outboundRequest]

/-- Witness for C6 at a concrete configuration. -/
theorem C6_witness :
    ((manual_refresh cfg0 none (Upstream.exc "down") "T").status = 401 ↔
      cfg0.GUARDIAN_SECRET ≠ "" ∧ (none : Option String) ≠ some cfg0.GUARDIAN_SECRET) ∧
    (∀ r ∈ (manual_refresh cfg0 none (Upstream.exc "down") "T").requests,
      r.headers = [("X-Admin-Token", cfg0.ADMIN_API_TOKEN)]) :=
  C6_refresh_auth_uses_guardian_secret cfg0 none (Upstream.exc "down") "T"

/-- C7: when the guardian secret is the empty string, both routes skip the
auth check entirely — whatever the header, neither responds 401 and each
invokes the relay exactly once. -/
theorem C7_empty_secret_bypasses_auth (cfg : Config) (hdr tok : Option String)
    (up : Upstream) (ts : String) (h : cfg.GUARDIAN_SECRET = "") :
    (refresh_needed cfg hdr up ts).relayCalls = 1 ∧
    (refresh_needed cfg hdr up ts).status ≠ 401 ∧
    (manual_refresh cfg tok up ts).relayCalls = 1 ∧
    (manual_refresh cfg tok up ts).status ≠ 401 := by
  have hfailW : ¬(cfg.GUARDIAN_SECRET ≠ "" ∧ hdr ≠ some cfg.GUARDIAN_SECRET) := by
    simp [h]
  have hfailM : ¬(cfg.GUARDIAN_SECRET ≠ "" ∧ tok ≠ some cfg.GUARDIAN_SECRET) := by
    simp [h]
  refine ⟨?_, ?_, ?_, ?_⟩
  · unfold refresh_needed
    rw [if_neg hfailW]
  · unfold refresh_needed
    rw [if_neg hfailW]
    rcases refresh_needed_core_status
        (Except.ok (refresh_withings_token cfg up).result) ts with hs | hs <;> simp [hs]
  · unfold manual_refresh
    rw [if_neg hfailM]
  · unfold manual_refresh
    rw [if_neg hfailM]
    rcases manual_refresh_core_status
        (Except.ok (refresh_withings_token cfg up).result) ts with hs | hs <;> simp [hs]

/-- Witness for C7: empty secret, mismatched headers still reach the relay. -/
theorem C7_witness :
    (refresh_needed ⟨"https://mcp.example", "admintok", ""⟩ (some "wrong")
        (Upstream.exc "down") "T").relayCalls = 1 ∧
    (refresh_needed ⟨"https://mcp.example", "admintok", ""⟩ (some "wrong")
        (Upstream.exc "down") "T").status ≠ 401 ∧
    (manual_refresh ⟨"https://mcp.example", "admintok", ""⟩ none
        (Upstream.exc "down") "T").relayCalls = 1 ∧
    (manual_refresh ⟨"https://mcp.example", "admintok", ""⟩ none
        (Upstream.exc "down") "T").status ≠ 401 :=
  C7_empty_secret_bypasses_auth ⟨"https://mcp.example", "admintok", ""⟩
    (some "wrong") none (Upstream.exc "down") "T" rfl

/-- C8 counterexample: on an uncaught relay exception the two routes do not
agree on the `message` field — the webhook says "Token refresh exception"
while `/refresh` says "Exception during refresh" — so the bodies differ in
more than the `timestamp` field. -/
theorem C8_counterexample :
    (manual_refresh_core (Except.error "boom") "T").2.message ≠
      (refresh_needed_core (Except.error "boom") "T").2.message ∧
    (refresh_needed_core (Except.error "boom") "T").2.message =
      some "Token refresh exception" ∧
    (manual_refresh_core (Except.error "boom") "T").2.message =
      some "Exception during refresh" := by
  refine ⟨?_, rfl, rfl⟩
  decide

/-- C8 (amended): for every relay *result* the `/refresh` body equals the
webhook body except that `timestamp` is omitted from `/refresh`'s 500
response; for an uncaught relay *exception* the bodies additionally differ
in the `message` string (`"Exception during refresh"` on `/refresh` versus
`"Token refresh exception"` on the webhook). -/
theorem C8_amended_bodies (r : RefreshResult) (e ts : String) :
    (manual_refresh_core (Except.ok r) ts).1 = (refresh_needed_core (Except.ok r) ts).1 ∧
    (manual_refresh_core (Except.ok r) ts).2 =
      { (refresh_needed_core (Except.ok r) ts).2 with
        timestamp := if r.success then some ts else none } ∧
    (manual_refresh_core (Except.error e) ts).2 =
      { (refresh_needed_core (Except.error e) ts).2 with
        timestamp := none
        message := some "Exception during refresh" } := by
  by_cases h : r.success <;>
    simp [manual_refresh_core, refresh_needed_core, h]

/-- C9: every relay result satisfies the invariant that `success=true`
implies the `error` key is absent and `success=false` implies it is
present. -/
theorem C9_result_invariant (cfg : Config) (up : Upstream) :
    ((refresh_withings_token cfg up).result.success = true →
      (refresh_withings_token cfg up).result.error = none) ∧
    ((refresh_withings_token cfg up).result.success = false →
      (refresh_withings_token cfg up).result.error ≠ none) := by
  unfold refresh_withings_token
  by_cases h : cfg.ADMIN_API_TOKEN = ""
  · simp [h]
  · rcases up with ⟨st, text, json⟩ | e
    · by_cases hst : st = 200
      · rcases json with ej | d <;> simp [h, hst]
      · simp [h, hst]
    · simp [h]

/-- Witness for C9 at concrete success and failure runs. -/
theorem C9_witness :
    (refresh_withings_token cfg0 (Upstream.response 200 "{}" (Except.ok []))).result.error
      = none ∧
    (refresh_withings_token cfg0 (Upstream.exc "down")).result.error ≠ none :=
  ⟨(C9_result_invariant cfg0 (Upstream.response 200 "{}" (Except.ok []))).1 (by decide),
    (C9_result_invariant cfg0 (Upstream.exc "down")).2 (by decide)⟩

/-- C10: since the relay is total, the `except` arm of the webhook handler
is unreachable: every authorized request is answered either 200 with
message "Token refreshed successfully" or 500 with message
"Token refresh failed" — never "Token refresh exception". -/
theorem C10_webhook_exception_branch_unreachable (cfg : Config)
    (hdr : Option String) (up : Upstream) (ts : String)
    (hauth : ¬(cfg.GUARDIAN_SECRET ≠ "" ∧ hdr ≠ some cfg.GUARDIAN_SECRET)) :
    ((refresh_needed cfg hdr up ts).status = 200 ∧
      (refresh_needed cfg hdr up ts).body.message =
        some "Token refreshed successfully") ∨
    ((refresh_needed cfg hdr up ts).status = 500 ∧
      (refresh_needed cfg hdr up ts).body.message =
        some "Token refresh failed") := by
  unfold refresh_needed
  rw [if_neg hauth]
  by_cases h : (refresh_withings_token cfg up).result.success <;>
    simp [refresh_needed_core, h]

/-- Witness for C10 at a concrete authorized failing request. -/
theorem C10_witness :
    ((refresh_needed cfg0 (some "guardsec") (Upstream.exc "down") "T").status = 200 ∧
      (refresh_needed cfg0 (some "guardsec") (Upstream.exc "down") "T").body.message =
        some "Token refreshed successfully") ∨
    ((refresh_needed cfg0 (some "guardsec") (Upstream.exc "down") "T").status = 500 ∧
      (refresh_needed cfg0 (some "guardsec") (Upstream.exc "down") "T").body.message =
        some "Token refresh failed") :=
  C10_webhook_exception_branch_unreachable cfg0 (some "guardsec")
    (Upstream.exc "down") "T" (by decide)
